import Mathlib

/-!
Verification of the reference-chip component
(`src/weave-js/src/components/PagePanelComponents/Home/Browse2/SmallRef.tsx`).

The data model, the label formatter `objectRefDisplayName` and the three
renderers `SmallArtifactRef`, `SmallWeaveRef` and `SmallRef` are embedded
shallowly: the injected data hooks (artifact metadata, version lookups, type
resolution, routing) become explicit inputs, JSX output becomes a `Render`
tree, and a TypeScript `throw` becomes `Except.error`.
-/

namespace SmallRefSpec

/-- Modelled from the spec: the artifact-reference variant of a reference
descriptor, "identified by entity, project, artifact name, version, path, and
optional extra path".  The type itself lives outside the given slice
(`@wandb/weave/react`); its fields are exactly the ones the component reads. -/
structure WandbArtifactRef where
  entityName : String
  projectName : String
  artifactName : String
  artifactVersion : String
  artifactPath : String
  artifactRefExtra : Option String
deriving DecidableEq, Repr

/-- Modelled from the spec: the weave-object-reference variant, "identified by
entity, project, a kind tag distinguishing operation-definitions from other
object kinds, object id, version hash, and optional extra path".  Its `scheme`
field is the constant string "weave" (that is what `isWeaveObjectRef` checks),
so it is not stored. -/
structure WeaveObjectRef where
  entityName : String
  projectName : String
  weaveKind : String
  artifactName : String
  artifactVersion : String
  artifactRefExtra : Option String
deriving DecidableEq, Repr

/-- Modelled from the spec: a reference descriptor is "a tagged union
distinguishing an artifact reference from a weave object reference"; an
unrecognized shape (matching neither type guard) is a further possibility the
component must handle, carried here as `otherRef` with an informal tag. -/
inductive ObjectRef where
  | wandbArtifact : WandbArtifactRef → ObjectRef
  | weaveObject : WeaveObjectRef → ObjectRef
  | otherRef : String → ObjectRef
deriving DecidableEq, Repr

/-- Modelled from the spec: the `isWandbArtifactRef` type guard of
`@wandb/weave/react` — true exactly on the artifact-reference variant. -/
def isWandbArtifactRef : ObjectRef → Bool
  | .wandbArtifact _ => true
  | _ => false

/-- Modelled from the spec: the `isWeaveObjectRef` type guard of
`@wandb/weave/react` — true exactly on the weave-object-reference variant. -/
def isWeaveObjectRef : ObjectRef → Bool
  | .weaveObject _ => true
  | _ => false

/-- The record `{label}` returned by `objectRefDisplayName`. -/
structure DisplayName where
  label : String
deriving DecidableEq, Repr

/-- Helper for `jsSplit`: splits a character list at every occurrence of the
separator character, never dropping segments (JavaScript `split` semantics:
`"a/".split('/')` is `["a", ""]` and `"".split('/')` is `[""]`). -/
def jsSplitChars (sep : Char) : List Char → List String
  | [] => [""]
  | ch :: rest =>
      if ch = sep then "" :: jsSplitChars sep rest
      else
        match jsSplitChars sep rest with
        | s :: tail => String.mk (ch :: s.data) :: tail
        | [] => [String.mk [ch]]

/-- The JavaScript `extra.split('/')` call of `objectRefDisplayName`
(SmallRef.tsx line 60), as a function on the string's characters. -/
def jsSplit (sep : Char) (s : String) : List String :=
  jsSplitChars sep s.data

/-- The loop `for (let i = 1; i < parts.length; i += 2) newParts.push(parts[i])`
of `objectRefDisplayName` (SmallRef.tsx lines 62-64): it keeps the segments at
odd indices 1, 3, 5, ... -/
def everyOtherPart : List String → List String
  | _ :: b :: rest => b :: everyOtherPart rest
  | _ => []

/-- The version string computed in both branches of `objectRefDisplayName`
(SmallRef.tsx lines 50-53 and 69-72): `v<index>` when an index is supplied,
otherwise `artifactVersion.slice(0, 6)`. -/
def versionStrOf (artifactVersion : String) : Option Nat → String
  | some i => "v" ++ toString i
  | none => artifactVersion.take 6

/-- `objectRefDisplayName` (SmallRef.tsx lines 45-80).  JavaScript string
truthiness on `artifactRefExtra` becomes presence of a non-empty option; the
`throw new Error('Unknown ref type')` becomes `Except.error`. -/
def objectRefDisplayName (objRef : ObjectRef) (versionIndex : Option Nat) :
    Except String DisplayName :=
  match objRef with
  | .wandbArtifact r =>
      let versionStr := versionStrOf r.artifactVersion versionIndex
      let label := r.artifactName ++ ":" ++ versionStr
      let label := if r.artifactPath ≠ "obj" then label ++ "/" ++ r.artifactPath else label
      let label :=
        match r.artifactRefExtra with
        | some extra =>
            if extra ≠ "" then
              let parts := jsSplit '/' extra
              label ++ "#" ++ String.intercalate "/" (everyOtherPart parts)
            else label
        | none => label
      .ok ⟨label⟩
  | .weaveObject r =>
      let versionStr := versionStrOf r.artifactVersion versionIndex
      let label := r.artifactName ++ ":" ++ versionStr
      let label :=
        match r.artifactRefExtra with
        | some extra => if extra ≠ "" then label ++ "/" ++ extra else label
        | none => label
      .ok ⟨label⟩
  | .otherRef _ => .error "Unknown ref type"

/-! ## Types and icons -/

/-- The `Type` values of `@wandb/weave/core` as the component consumes them: a
plain string tag (such as the literal `'unknown'`), or an object tag with an
optional `_base_type`.  Modelled from the spec: the core type module is not in
the given slice; the component only reads `type`, `_base_type` and the name. -/
inductive WType where
  | str : String → WType
  | objNoBase : String → WType
  | objWithBase : String → WType → WType
deriving DecidableEq, Repr

/-- The test `t._base_type?.type !== 'Object'` applied to a base type `b`
(SmallRef.tsx line 28): a plain string has no `type` field, so the comparison
with `'Object'` is true for it. -/
def baseTagNotObject : WType → Bool
  | .str _ => true
  | .objNoBase t => t ≠ "Object"
  | .objWithBase t _ => t ≠ "Object"

/-- `getRootType` (SmallRef.tsx lines 25-33): follow `_base_type` while it is
present and its tag is not `'Object'`. -/
def getRootType : WType → WType
  | .objWithBase t b =>
      if baseTagNotObject b then getRootType b else .objWithBase t b
  | t => t

/-- Modelled from the spec: `getTypeName` of `@wandb/weave/core` — the string
itself for a string type, the `type` tag for an object type. -/
def getTypeName : WType → String
  | .str s => s
  | .objNoBase t => t
  | .objWithBase t _ => t

/-- The icon identifiers the component mentions (`IconNames` members). -/
inductive IconName where
  | loading
  | registries
  | openNewTab
  | cubeContainer
  | table
  | model
  | list
  | jobProgramCode
deriving DecidableEq, Repr

/-! ## Rendered output -/

/-- The rendered markup, reduced to the parts the spec talks about:
`refBox icon text iconOnly` is `SmallRefBox`; `content cursor title box tab`
is the `Content` box of `SmallArtifactRef` (with its cursor style, tooltip
title and whether the open-new-tab icon is present); `link href child` is a
wrapping `Link`; `errorDiv` is the inline error element of `SmallRef`. -/
inductive Render where
  | refBox : IconName → String → Bool → Render
  | content : String → String → Render → Bool → Render
  | link : String → Render → Render
  | errorDiv : String → Render
deriving DecidableEq, Repr

/-- True when the rendered tree contains a hyperlink (`Link`) node. -/
def hasLink : Render → Bool
  | .link _ _ => true
  | .content _ _ inner _ => hasLink inner
  | .refBox _ _ _ => false
  | .errorDiv _ => false

/-- The icon of the `SmallRefBox` inside a rendered tree, if any. -/
def boxIcon : Render → Option IconName
  | .refBox i _ _ => some i
  | .content _ _ inner _ => boxIcon inner
  | .link _ c => boxIcon c
  | .errorDiv _ => none

/-- The text of the `SmallRefBox` inside a rendered tree, if any. -/
def boxText : Render → Option String
  | .refBox _ t _ => some t
  | .content _ _ inner _ => boxText inner
  | .link _ c => boxText c
  | .errorDiv _ => none

/-! ## SmallArtifactRef -/

/-- The fields of `artInfo` that `SmallArtifactRef` forwards to
`fetchArtifactRefPageUrl` (the result of the injected
`useArtifactWeaveReference` hook). -/
structure ArtInfo where
  artifactType : String
  orgName : String
deriving DecidableEq, Repr

/-- The `artifactUrl` computation of `SmallArtifactRef` (SmallRef.tsx lines
131-140): `null` when `artInfo` is absent, otherwise the result of the
injected `fetchArtifactRefPageUrl` (modelled from the spec: "build an external
artifact page URL from identity fields" — it lives in `./url`, outside the
given slice; a `none` result stands for an unresolvable URL). -/
def artifactUrlOf (objRef : WandbArtifactRef) (artInfo : Option ArtInfo)
    (fetchPageUrl : WandbArtifactRef → ArtInfo → Option String) : Option String :=
  match artInfo with
  | some info => fetchPageUrl objRef info
  | none => none

/-- `SmallArtifactRef` (SmallRef.tsx lines 118-183).  The injected hook result
(`loading`, `artInfo`) and the URL builder are explicit inputs.  The component
ignores its `iconOnly` prop (it renders `SmallRefBox` without one, so `false`).
-/
def SmallArtifactRef (objRef : WandbArtifactRef) (loading : Bool)
    (artInfo : Option ArtInfo)
    (fetchPageUrl : WandbArtifactRef → ArtInfo → Option String) : Render :=
  if loading then .refBox .loading "Loading..." false
  else
    let artifactUrl := artifactUrlOf objRef artInfo fetchPageUrl
    let theContent : Render :=
      .content
        (if artifactUrl.isSome then "pointer" else "not-allowed")
        (match artifactUrl with
          | some _ => objRef.artifactPath
          | none =>
              "No link detected for this wandb artifact reference: "
                ++ objRef.artifactPath)
        (.refBox .registries (objRef.artifactName ++ ":" ++ objRef.artifactVersion) false)
        artifactUrl.isSome
    match artifactUrl with
    | some u => .link u theContent
    | none => theContent

/-! ## SmallWeaveRef -/

/-- The results of the injected data hooks consumed by `SmallWeaveRef`
(SmallRef.tsx lines 190-229): the `versionIndex` of the object-version and
op-version lookups (`none` when the lookup has no result), the loading flag
and result of the type query `useRefsType([refUri(objRef)])`, and the router's
URL builder `peekingRouter.refUIUrl` applied to a root type name and an
optional table kind (the reference itself is fixed in context). -/
structure WeaveHooks where
  objectVersionIdx : Option Nat
  opVersionIdx : Option Nat
  refTypeLoading : Bool
  refTypeResult : Option WType
  refUIUrl : String → Option String → String

/-- The `versionIndex` of `SmallWeaveRef` (SmallRef.tsx lines 221-222):
`objectVersion.result?.versionIndex ?? opVersion.result?.versionIndex`. -/
def versionIndexOf (h : WeaveHooks) : Option Nat :=
  match h.objectVersionIdx with
  | some i => some i
  | none => h.opVersionIdx

/-- The `refType` of `SmallWeaveRef` (SmallRef.tsx lines 226-229): the string
type `'unknown'` while the query is loading or has no result. -/
def refTypeOf (h : WeaveHooks) : WType :=
  match h.refTypeLoading, h.refTypeResult with
  | false, some t => t
  | _, _ => .str "unknown"

/-- The `rootType` of `SmallWeaveRef` (SmallRef.tsx lines 230-234):
`getRootType` of the resolved type, overridden to `{type: 'OpDef'}` for op
references (a weave-object reference always has scheme `'weave'`, so the
`objRef.scheme === 'weave'` conjunct of line 231 is satisfied). -/
def rootTypeOf (objRef : WeaveObjectRef) (h : WeaveHooks) : WType :=
  let rt := getRootType (refTypeOf h)
  if objRef.weaveKind = "op" then .objNoBase "OpDef" else rt

/-- The `rootTypeName` of `SmallWeaveRef` (SmallRef.tsx line 237). -/
def rootTypeNameOf (objRef : WeaveObjectRef) (h : WeaveHooks) : String :=
  getTypeName (rootTypeOf objRef h)

/-- The icon chain of `SmallWeaveRef` (SmallRef.tsx lines 238-247). -/
def iconNameOf (rootTypeName : String) : IconName :=
  if rootTypeName = "Dataset" then .table
  else if rootTypeName = "Model" then .model
  else if rootTypeName = "List" then .list
  else if rootTypeName = "OpDef" then .jobProgramCode
  else .cubeContainer

/-- The label computed by the weave-object branch of `objectRefDisplayName`
(SmallRef.tsx lines 68-77), as a total function; `SmallWeaveRef` only ever
calls the formatter on a weave-object reference, where it cannot throw
(`weaveObjectLabel_ok` below). -/
def weaveObjectLabel (r : WeaveObjectRef) (versionIndex : Option Nat) : String :=
  let versionStr := versionStrOf r.artifactVersion versionIndex
  let label := r.artifactName ++ ":" ++ versionStr
  match r.artifactRefExtra with
  | some extra => if extra ≠ "" then label ++ "/" ++ extra else label
  | none => label

/-- `SmallWeaveRef` (SmallRef.tsx lines 185-263): builds the label and icon,
and wraps them in a link to the routed URL unless the type query is still
loading. -/
def SmallWeaveRef (objRef : WeaveObjectRef) (wfTable : Option String)
    (iconOnly : Bool) (h : WeaveHooks) : Render :=
  let versionIndex := versionIndexOf h
  let rootTypeName := rootTypeNameOf objRef h
  let icon := iconNameOf rootTypeName
  let item : Render := .refBox icon (weaveObjectLabel objRef versionIndex) iconOnly
  if h.refTypeLoading then item
  else .link (h.refUIUrl rootTypeName wfTable) item

/-! ## SmallRef -/

/-- `SmallRef` (SmallRef.tsx lines 265-283): dispatches on the two type
guards, rendering an inline error element when neither matches.  It forwards
`iconOnly` only to `SmallWeaveRef` (line 278 drops it for the artifact case,
and `SmallArtifactRef` ignores it anyway).  All hook data of both branches is
taken as input. -/
def SmallRef (objRef : ObjectRef) (wfTable : Option String) (iconOnly : Bool)
    (artLoading : Bool) (artInfo : Option ArtInfo)
    (fetchPageUrl : WandbArtifactRef → ArtInfo → Option String)
    (wh : WeaveHooks) : Render :=
  match objRef with
  | .wandbArtifact r => SmallArtifactRef r artLoading artInfo fetchPageUrl
  | .weaveObject r => SmallWeaveRef r wfTable iconOnly wh
  | .otherRef _ => .errorDiv "[Error: non wandb ref]"

/-! ## Derived forms used by the theorems -/

/-- The name field shared by the two recognized reference variants. -/
def refArtifactName : ObjectRef → String
  | .wandbArtifact r => r.artifactName
  | .weaveObject r => r.artifactName
  | .otherRef _ => ""

/-- The version field shared by the two recognized reference variants. -/
def refArtifactVersion : ObjectRef → String
  | .wandbArtifact r => r.artifactVersion
  | .weaveObject r => r.artifactVersion
  | .otherRef _ => ""

/-- Replace the version field of a reference, leaving everything else. -/
def setRefVersion (v : String) : ObjectRef → ObjectRef
  | .wandbArtifact ⟨e, p, nm, _, pa, ex⟩ => .wandbArtifact ⟨e, p, nm, v, pa, ex⟩
  | .weaveObject ⟨e, p, k, nm, _, ex⟩ => .weaveObject ⟨e, p, k, nm, v, ex⟩
  | .otherRef s => .otherRef s

/-- What the artifact branch of `objectRefDisplayName` appends for the path. -/
def artifactPathSuffix (p : String) : String :=
  if p ≠ "obj" then "/" ++ p else ""

/-- What the artifact branch of `objectRefDisplayName` appends for the extra
path. -/
def artifactExtraSuffix : Option String → String
  | some extra =>
      if extra ≠ "" then
        "#" ++ String.intercalate "/" (everyOtherPart (jsSplit '/' extra))
      else ""
  | none => ""

/-- What the weave-object branch of `objectRefDisplayName` appends for the
extra path. -/
def weaveExtraSuffix : Option String → String
  | some extra => if extra ≠ "" then "/" ++ extra else ""
  | none => ""

theorem objectRefDisplayName_artifact (r : WandbArtifactRef) (vi : Option Nat) :
    objectRefDisplayName (.wandbArtifact r) vi
      = .ok ⟨r.artifactName ++ ":" ++ versionStrOf r.artifactVersion vi
          ++ artifactPathSuffix r.artifactPath
          ++ artifactExtraSuffix r.artifactRefExtra⟩ := by
  obtain ⟨e, p, nm, ver, pa, ex⟩ := r
  by_cases hpa : pa = "obj" <;>
    cases ex with
    | none =>
        simp [objectRefDisplayName, artifactPathSuffix, artifactExtraSuffix, hpa,
          String.append_empty, String.append_assoc]
    | some extra =>
        by_cases hex : extra = "" <;>
          simp [objectRefDisplayName, artifactPathSuffix, artifactExtraSuffix, hpa, hex,
            String.append_empty, String.append_assoc]

theorem objectRefDisplayName_weave (r : WeaveObjectRef) (vi : Option Nat) :
    objectRefDisplayName (.weaveObject r) vi
      = .ok ⟨r.artifactName ++ ":" ++ versionStrOf r.artifactVersion vi
          ++ weaveExtraSuffix r.artifactRefExtra⟩ := by
  obtain ⟨e, p, k, nm, ver, ex⟩ := r
  cases ex with
  | none =>
      simp [objectRefDisplayName, weaveExtraSuffix, String.append_empty]
  | some extra =>
      by_cases hex : extra = "" <;>
        simp [objectRefDisplayName, weaveExtraSuffix, hex,
          String.append_empty, String.append_assoc]

theorem weaveObjectLabel_ok (r : WeaveObjectRef) (vi : Option Nat) :
    objectRefDisplayName (.weaveObject r) vi = .ok ⟨weaveObjectLabel r vi⟩ := rfl

/-- The elements of a list at even indices 0, 2, 4, ... (used to describe
`everyOtherPart` positionally). -/
def takeEvenIdx : List String → List String
  | [] => []
  | a :: rest => a :: everyOtherPart rest

theorem everyOtherPart_cons (a : String) (rest : List String) :
    everyOtherPart (a :: rest) = takeEvenIdx rest := by
  cases rest with
  | nil => rfl
  | cons b r => rfl

/-- Keeps the second component of an indexed element exactly when the index is
odd: the positional reading of the spec's "odd-indexed segments only". -/
def oddPick (p : Nat × String) : Option String :=
  if p.1 % 2 = 1 then some p.2 else none

theorem enumFrom_oddPick (l : List String) : ∀ n : Nat,
    ((l.enumFrom (2 * n)).filterMap oddPick = everyOtherPart l)
    ∧ ((l.enumFrom (2 * n + 1)).filterMap oddPick = takeEvenIdx l) := by
  induction l with
  | nil => intro n; constructor <;> rfl
  | cons a rest ih =>
      intro n
      constructor
      · rw [List.enumFrom_cons, List.filterMap_cons]
        have hmod : (2 * n) % 2 = 0 := by omega
        have h0 : oddPick (2 * n, a) = none := by simp [oddPick, hmod]
        rw [h0, everyOtherPart_cons]
        exact (ih n).2
      · rw [List.enumFrom_cons, List.filterMap_cons]
        have hmod : (2 * n + 1) % 2 = 1 := by omega
        have h1 : oddPick (2 * n + 1, a) = some a := by simp [oddPick, hmod]
        rw [h1]
        have h2 : 2 * n + 1 + 1 = 2 * (n + 1) := by omega
        rw [h2, (ih (n + 1)).1]
        rfl

/-- The loop of `objectRefDisplayName` keeps exactly the odd-indexed
elements. -/
theorem everyOtherPart_eq_odd_indexed (l : List String) :
    everyOtherPart l = l.enum.filterMap oddPick := by
  have h := (enumFrom_oddPick l 0).1
  simpa [List.enum] using h.symm

theorem colon_v_append (s : String) : ":" ++ ("v" ++ s) = ":v" ++ s := by
  rw [← String.append_assoc]
  rfl

/-! ## Claims -/

/-- Claim C1, counterexample: the claim asserts the '#'-prefixed odd-indexed
treatment of a present non-empty extra path for BOTH recognized variants, but
the weave-object branch of `objectRefDisplayName` (SmallRef.tsx lines 74-76)
appends `'/' + artifactRefExtra` whole: with extra segments `[a,b,c,d]` the
label is `"name:abcdef/a/b/c/d"`, which contains no `'#'` at all. -/
theorem c1_counterexample :
    objectRefDisplayName
        (.weaveObject ⟨"ent", "proj", "object", "name", "abcdef1234", some "a/b/c/d"⟩) none
      = .ok ⟨"name:abcdef/a/b/c/d"⟩
    ∧ ¬ ('#' ∈ "name:abcdef/a/b/c/d".data) := ⟨rfl, by decide⟩

/-- Claim C1 (amended): for an ARTIFACT reference whose extra-path qualifier is
present and non-empty, the label appends a '#'-prefixed, slash-joined list of
the odd-indexed segments of the extra path; a weave-object reference instead
appends '/' followed by the whole extra path. -/
theorem c1_extra_path_segments (vi : Option Nat) :
    (∀ (r : WandbArtifactRef) (extra : String),
      r.artifactRefExtra = some extra → extra ≠ "" →
      objectRefDisplayName (.wandbArtifact r) vi
        = .ok ⟨r.artifactName ++ ":" ++ versionStrOf r.artifactVersion vi
            ++ artifactPathSuffix r.artifactPath
            ++ ("#" ++ String.intercalate "/"
                  ((jsSplit '/' extra).enum.filterMap oddPick))⟩)
    ∧ (∀ (r : WeaveObjectRef) (extra : String),
      r.artifactRefExtra = some extra → extra ≠ "" →
      objectRefDisplayName (.weaveObject r) vi
        = .ok ⟨r.artifactName ++ ":" ++ versionStrOf r.artifactVersion vi
            ++ ("/" ++ extra)⟩) := by
  constructor
  · intro r extra hex hne
    rw [objectRefDisplayName_artifact]
    rw [hex]
    simp [artifactExtraSuffix, hne, everyOtherPart_eq_odd_indexed, String.append_assoc]
  · intro r extra hex hne
    rw [objectRefDisplayName_weave]
    rw [hex]
    simp [weaveExtraSuffix, hne, String.append_assoc]

/-- Witness for C1 (amended): artifact extra `"a/b/c/d"` contributes exactly
`"#b/d"`; the weave-object counterpart appends the whole extra path. -/
theorem c1_extra_path_segments_witness :
    objectRefDisplayName
        (.wandbArtifact ⟨"e", "p", "model", "abcdef1234", "obj", some "a/b/c/d"⟩) none
      = .ok ⟨"model:abcdef#b/d"⟩
    ∧ objectRefDisplayName
        (.weaveObject ⟨"e", "p", "object", "nm", "abcdef1234", some "a/b/c/d"⟩) (some 3)
      = .ok ⟨"nm:v3/a/b/c/d"⟩ := by
  constructor
  · exact ((c1_extra_path_segments none).1
      ⟨"e", "p", "model", "abcdef1234", "obj", some "a/b/c/d"⟩ "a/b/c/d" rfl
      (by decide)).trans rfl
  · exact ((c1_extra_path_segments (some 3)).2
      ⟨"e", "p", "object", "nm", "abcdef1234", some "a/b/c/d"⟩ "a/b/c/d" rfl
      (by decide)).trans rfl

/-- Claim C2: for a recognized reference variant and a supplied numeric
version index, the label's version part is `v` followed by the index; the
version hash plays no role (replacing it does not change the result). -/
theorem c2_version_index_label (r : ObjectRef) (n : Nat) (v : String)
    (h : (isWandbArtifactRef r || isWeaveObjectRef r) = true) :
    (∃ s, objectRefDisplayName r (some n)
        = .ok ⟨refArtifactName r ++ ":v" ++ toString n ++ s⟩)
    ∧ objectRefDisplayName (setRefVersion v r) (some n)
        = objectRefDisplayName r (some n) := by
  cases r with
  | wandbArtifact a =>
      obtain ⟨e, p, nm, ver, pa, ex⟩ := a
      constructor
      · refine ⟨artifactPathSuffix pa ++ artifactExtraSuffix ex, ?_⟩
        rw [objectRefDisplayName_artifact]
        simp only [refArtifactName, versionStrOf, String.append_assoc, colon_v_append]
      · rfl
  | weaveObject a =>
      obtain ⟨e, p, k, nm, ver, ex⟩ := a
      constructor
      · refine ⟨weaveExtraSuffix ex, ?_⟩
        rw [objectRefDisplayName_weave]
        simp only [refArtifactName, versionStrOf, String.append_assoc, colon_v_append]
      · rfl
  | otherRef s => simp [isWandbArtifactRef, isWeaveObjectRef] at h

/-- Witness for C2 at a concrete artifact reference and index 3. -/
theorem c2_version_index_label_witness :
    (∃ s, objectRefDisplayName
        (.wandbArtifact ⟨"e", "p", "model", "abcdef1234", "obj", none⟩) (some 3)
        = .ok ⟨refArtifactName
            (.wandbArtifact ⟨"e", "p", "model", "abcdef1234", "obj", none⟩)
            ++ ":v" ++ toString 3 ++ s⟩)
    ∧ objectRefDisplayName
        (setRefVersion "0123456789"
          (.wandbArtifact ⟨"e", "p", "model", "abcdef1234", "obj", none⟩)) (some 3)
      = objectRefDisplayName
          (.wandbArtifact ⟨"e", "p", "model", "abcdef1234", "obj", none⟩) (some 3) :=
  c2_version_index_label
    (.wandbArtifact ⟨"e", "p", "model", "abcdef1234", "obj", none⟩) 3 "0123456789"
    (by decide)

/-- Claim C3: for a recognized reference variant with no version index, the
version part of the label is the first 6 characters of the version string; in
particular name `"model"`, version `"abcdef1234"`, path `"obj"`, no extra path
and no index yield `"model:abcdef"`. -/
theorem c3_no_index_label (r : ObjectRef)
    (h : (isWandbArtifactRef r || isWeaveObjectRef r) = true) :
    (∃ s, objectRefDisplayName r none
        = .ok ⟨refArtifactName r ++ ":" ++ (refArtifactVersion r).take 6 ++ s⟩)
    ∧ objectRefDisplayName
        (.wandbArtifact ⟨"e", "p", "model", "abcdef1234", "obj", none⟩) none
      = .ok ⟨"model:abcdef"⟩ := by
  refine ⟨?_, rfl⟩
  cases r with
  | wandbArtifact a =>
      obtain ⟨e, p, nm, ver, pa, ex⟩ := a
      refine ⟨artifactPathSuffix pa ++ artifactExtraSuffix ex, ?_⟩
      rw [objectRefDisplayName_artifact]
      simp only [refArtifactName, refArtifactVersion, versionStrOf, String.append_assoc]
  | weaveObject a =>
      obtain ⟨e, p, k, nm, ver, ex⟩ := a
      refine ⟨weaveExtraSuffix ex, ?_⟩
      rw [objectRefDisplayName_weave]
      simp only [refArtifactName, refArtifactVersion, versionStrOf, String.append_assoc]
  | otherRef s => simp [isWandbArtifactRef, isWeaveObjectRef] at h

/-- Witness for C3 at a concrete weave-object reference. -/
theorem c3_no_index_label_witness :
    (∃ s, objectRefDisplayName
        (.weaveObject ⟨"e", "p", "object", "nm", "0123456789", none⟩) none
        = .ok ⟨refArtifactName (.weaveObject ⟨"e", "p", "object", "nm", "0123456789", none⟩)
            ++ ":" ++ (refArtifactVersion
              (.weaveObject ⟨"e", "p", "object", "nm", "0123456789", none⟩)).take 6 ++ s⟩)
    ∧ objectRefDisplayName
        (.wandbArtifact ⟨"e", "p", "model", "abcdef1234", "obj", none⟩) none
      = .ok ⟨"model:abcdef"⟩ :=
  c3_no_index_label (.weaveObject ⟨"e", "p", "object", "nm", "0123456789", none⟩)
    (by decide)

/-- Claim C4: the artifact branch appends `'/' ++ artifactPath` exactly when
the path differs from the default `"obj"`; the default path is omitted. -/
theorem c4_path_appended_iff (r : WandbArtifactRef) (vi : Option Nat) :
    (r.artifactPath = "obj" →
      objectRefDisplayName (.wandbArtifact r) vi
        = .ok ⟨r.artifactName ++ ":" ++ versionStrOf r.artifactVersion vi
            ++ artifactExtraSuffix r.artifactRefExtra⟩)
    ∧ (r.artifactPath ≠ "obj" →
      objectRefDisplayName (.wandbArtifact r) vi
        = .ok ⟨r.artifactName ++ ":" ++ versionStrOf r.artifactVersion vi
            ++ ("/" ++ r.artifactPath)
            ++ artifactExtraSuffix r.artifactRefExtra⟩) := by
  constructor
  · intro hp
    rw [objectRefDisplayName_artifact]
    simp [artifactPathSuffix, hp, String.append_empty]
  · intro hp
    rw [objectRefDisplayName_artifact]
    simp [artifactPathSuffix, hp]

/-- Witness for C4: the default path `"obj"` is omitted, a non-default path
`"media/images"` is appended with a leading slash. -/
theorem c4_path_appended_iff_witness :
    objectRefDisplayName
        (.wandbArtifact ⟨"e", "p", "model", "abcdef1234", "obj", none⟩) none
      = .ok ⟨"model:abcdef" ++ artifactExtraSuffix none⟩
    ∧ objectRefDisplayName
        (.wandbArtifact ⟨"e", "p", "model", "abcdef1234", "media/images", none⟩) none
      = .ok ⟨"model:abcdef" ++ ("/" ++ "media/images") ++ artifactExtraSuffix none⟩ := by
  constructor
  · exact ((c4_path_appended_iff
      ⟨"e", "p", "model", "abcdef1234", "obj", none⟩ none).1 rfl).trans rfl
  · exact ((c4_path_appended_iff
      ⟨"e", "p", "model", "abcdef1234", "media/images", none⟩ none).2 (by decide)).trans rfl

/-- Claim C5: on a reference matching neither recognized variant,
`objectRefDisplayName` signals the error `Unknown ref type` and produces no
label. -/
theorem c5_unknown_ref_error (s : String) (vi : Option Nat) :
    objectRefDisplayName (.otherRef s) vi = .error "Unknown ref type" := rfl

/-- Claim C6, counterexample: the claim asserts that while the injected
lookups are pending BOTH chip renderers show a neutral loading placeholder.
The loading placeholder the component uses is `SmallRefBox` with the loading
icon and text `"Loading..."` (SmallRef.tsx line 128) — but `SmallWeaveRef`
with every lookup pending (no version results, type query loading) renders
the ordinary labelled box `refBox cubeContainer "name:abcdef"` instead. -/
theorem c6_counterexample :
    SmallWeaveRef ⟨"e", "p", "object", "name", "abcdef1234", none⟩ none false
        ⟨none, none, true, none, fun _ _ => ""⟩
      = .refBox .cubeContainer "name:abcdef" false
    ∧ (Render.refBox .cubeContainer "name:abcdef" false
        ≠ Render.refBox .loading "Loading..." false) := ⟨rfl, by decide⟩

/-- Claim C6 (amended): while its artifact-metadata lookup is pending the
artifact chip renders the neutral loading placeholder (loading icon, text
`"Loading..."`); while its type lookup is pending the weave-object chip
renders its plain icon-and-label box; in both cases the output contains no
hyperlink. -/
theorem c6_loading_no_link (r : WandbArtifactRef) (artInfo : Option ArtInfo)
    (fetch : WandbArtifactRef → ArtInfo → Option String)
    (w : WeaveObjectRef) (wfTable : Option String) (iconOnly : Bool)
    (h : WeaveHooks) (hl : h.refTypeLoading = true) :
    SmallArtifactRef r true artInfo fetch = .refBox .loading "Loading..." false
    ∧ hasLink (SmallArtifactRef r true artInfo fetch) = false
    ∧ SmallWeaveRef w wfTable iconOnly h
        = .refBox (iconNameOf (rootTypeNameOf w h))
            (weaveObjectLabel w (versionIndexOf h)) iconOnly
    ∧ hasLink (SmallWeaveRef w wfTable iconOnly h) = false := by
  refine ⟨rfl, rfl, ?_, ?_⟩
  · simp [SmallWeaveRef, hl]
  · simp [SmallWeaveRef, hl, hasLink]

/-- Witness for C6 (amended) at concrete pending lookups. -/
theorem c6_loading_no_link_witness :
    SmallArtifactRef ⟨"e", "p", "model", "abcdef1234", "obj", none⟩ true none
        (fun _ _ => none)
      = .refBox .loading "Loading..." false
    ∧ hasLink (SmallArtifactRef ⟨"e", "p", "model", "abcdef1234", "obj", none⟩ true none
        (fun _ _ => none)) = false
    ∧ SmallWeaveRef ⟨"e", "p", "object", "name", "abcdef1234", none⟩ none false
        ⟨none, none, true, none, fun _ _ => ""⟩
      = .refBox
          (iconNameOf (rootTypeNameOf ⟨"e", "p", "object", "name", "abcdef1234", none⟩
            ⟨none, none, true, none, fun _ _ => ""⟩))
          (weaveObjectLabel ⟨"e", "p", "object", "name", "abcdef1234", none⟩
            (versionIndexOf ⟨none, none, true, none, fun _ _ => ""⟩)) false
    ∧ hasLink (SmallWeaveRef ⟨"e", "p", "object", "name", "abcdef1234", none⟩ none false
        ⟨none, none, true, none, fun _ _ => ""⟩) = false :=
  c6_loading_no_link ⟨"e", "p", "model", "abcdef1234", "obj", none⟩ none (fun _ _ => none)
    ⟨"e", "p", "object", "name", "abcdef1234", none⟩ none false
    ⟨none, none, true, none, fun _ _ => ""⟩ rfl

/-- Claim C7: a non-loading artifact chip whose external page URL resolves to
nothing renders the non-interactive content box — cursor `not-allowed`, an
explanatory tooltip naming the artifact path — and no hyperlink wraps it. -/
theorem c7_unresolved_url_not_allowed (r : WandbArtifactRef)
    (artInfo : Option ArtInfo)
    (fetch : WandbArtifactRef → ArtInfo → Option String)
    (hurl : artifactUrlOf r artInfo fetch = none) :
    SmallArtifactRef r false artInfo fetch
      = .content "not-allowed"
          ("No link detected for this wandb artifact reference: " ++ r.artifactPath)
          (.refBox .registries (r.artifactName ++ ":" ++ r.artifactVersion) false) false
    ∧ hasLink (SmallArtifactRef r false artInfo fetch) = false := by
  constructor
  · simp [SmallArtifactRef, hurl]
  · simp [SmallArtifactRef, hurl, hasLink]

/-- Witness for C7: metadata lookup yielded nothing, so no URL resolves. -/
theorem c7_unresolved_url_not_allowed_witness :
    SmallArtifactRef ⟨"e", "p", "model", "abcdef1234", "obj", none⟩ false none
        (fun _ _ => none)
      = .content "not-allowed"
          ("No link detected for this wandb artifact reference: " ++ "obj")
          (.refBox .registries ("model" ++ ":" ++ "abcdef1234") false) false
    ∧ hasLink (SmallArtifactRef ⟨"e", "p", "model", "abcdef1234", "obj", none⟩ false none
        (fun _ _ => none)) = false :=
  c7_unresolved_url_not_allowed ⟨"e", "p", "model", "abcdef1234", "obj", none⟩ none
    (fun _ _ => none) rfl

/-- Claim C8: the top-level chip on a reference matching neither variant
renders the visible inline error element; `SmallRef` is a total function into
`Render`, so no exception escapes. -/
theorem c8_unrecognized_renders_error (s : String) (wfTable : Option String)
    (iconOnly artLoading : Bool) (artInfo : Option ArtInfo)
    (fetch : WandbArtifactRef → ArtInfo → Option String) (wh : WeaveHooks) :
    SmallRef (.otherRef s) wfTable iconOnly artLoading artInfo fetch wh
      = .errorDiv "[Error: non wandb ref]" := rfl

/-- Claim C9: the weave-object chip's icon is the fixed lookup on the resolved
root type name — `Dataset` to the table icon, `Model` to the model icon,
`List` to the list icon, `OpDef` to the program-code icon, everything else to
the cube-container default. -/
theorem c9_icon_fixed_lookup (w : WeaveObjectRef) (wfTable : Option String)
    (iconOnly : Bool) (h : WeaveHooks) :
    boxIcon (SmallWeaveRef w wfTable iconOnly h)
      = some (iconNameOf (rootTypeNameOf w h))
    ∧ (rootTypeNameOf w h = "Dataset" →
        boxIcon (SmallWeaveRef w wfTable iconOnly h) = some .table)
    ∧ (rootTypeNameOf w h = "Model" →
        boxIcon (SmallWeaveRef w wfTable iconOnly h) = some .model)
    ∧ (rootTypeNameOf w h = "List" →
        boxIcon (SmallWeaveRef w wfTable iconOnly h) = some .list)
    ∧ (rootTypeNameOf w h = "OpDef" →
        boxIcon (SmallWeaveRef w wfTable iconOnly h) = some .jobProgramCode)
    ∧ (rootTypeNameOf w h ∉ (["Dataset", "Model", "List", "OpDef"] : List String) →
        boxIcon (SmallWeaveRef w wfTable iconOnly h) = some .cubeContainer) := by
  have key : boxIcon (SmallWeaveRef w wfTable iconOnly h)
      = some (iconNameOf (rootTypeNameOf w h)) := by
    cases hc : h.refTypeLoading <;> simp [SmallWeaveRef, hc, boxIcon]
  refine ⟨key, ?_, ?_, ?_, ?_, ?_⟩
  · intro he; rw [key, he]; rfl
  · intro he; rw [key, he]; rfl
  · intro he; rw [key, he]; rfl
  · intro he; rw [key, he]; rfl
  · intro he
    simp only [List.mem_cons, List.not_mem_nil, or_false, not_or] at he
    obtain ⟨h1, h2, h3, h4⟩ := he
    rw [key]
    simp [iconNameOf, h1, h2, h3, h4]

/-- Witness for C9: each of the five classifications at a concrete chip. -/
theorem c9_icon_fixed_lookup_witness :
    boxIcon (SmallWeaveRef ⟨"e", "p", "object", "nm", "abcdef1234", none⟩ none false
        ⟨none, none, false, some (.str "Dataset"), fun _ _ => ""⟩) = some .table
    ∧ boxIcon (SmallWeaveRef ⟨"e", "p", "object", "nm", "abcdef1234", none⟩ none false
        ⟨none, none, false, some (.str "Model"), fun _ _ => ""⟩) = some .model
    ∧ boxIcon (SmallWeaveRef ⟨"e", "p", "object", "nm", "abcdef1234", none⟩ none false
        ⟨none, none, false, some (.str "List"), fun _ _ => ""⟩) = some .list
    ∧ boxIcon (SmallWeaveRef ⟨"e", "p", "op", "nm", "abcdef1234", none⟩ none false
        ⟨none, none, false, some (.str "objRef"), fun _ _ => ""⟩) = some .jobProgramCode
    ∧ boxIcon (SmallWeaveRef ⟨"e", "p", "object", "nm", "abcdef1234", none⟩ none false
        ⟨none, none, false, some (.str "Scorer"), fun _ _ => ""⟩) = some .cubeContainer :=
  ⟨(c9_icon_fixed_lookup ⟨"e", "p", "object", "nm", "abcdef1234", none⟩ none false
      ⟨none, none, false, some (.str "Dataset"), fun _ _ => ""⟩).2.1 rfl,
   (c9_icon_fixed_lookup ⟨"e", "p", "object", "nm", "abcdef1234", none⟩ none false
      ⟨none, none, false, some (.str "Model"), fun _ _ => ""⟩).2.2.1 rfl,
   (c9_icon_fixed_lookup ⟨"e", "p", "object", "nm", "abcdef1234", none⟩ none false
      ⟨none, none, false, some (.str "List"), fun _ _ => ""⟩).2.2.2.1 rfl,
   (c9_icon_fixed_lookup ⟨"e", "p", "op", "nm", "abcdef1234", none⟩ none false
      ⟨none, none, false, some (.str "objRef"), fun _ _ => ""⟩).2.2.2.2.1 rfl,
   (c9_icon_fixed_lookup ⟨"e", "p", "object", "nm", "abcdef1234", none⟩ none false
      ⟨none, none, false, some (.str "Scorer"), fun _ _ => ""⟩).2.2.2.2.2 (by decide)⟩

/-- Claim C10: the non-loading artifact chip displays
`artifactName ++ ":" ++ artifactVersion` — the full version string, not the
formatter's 6-character truncation or `v<index>` form. -/
theorem c10_artifact_text_full_version (r : WandbArtifactRef)
    (artInfo : Option ArtInfo)
    (fetch : WandbArtifactRef → ArtInfo → Option String) :
    boxText (SmallArtifactRef r false artInfo fetch)
      = some (r.artifactName ++ ":" ++ r.artifactVersion) := by
  cases hu : artifactUrlOf r artInfo fetch <;>
    simp [SmallArtifactRef, hu, boxText]

end SmallRefSpec
